import Mathlib

/-!
# Verification of the role-aware analytics dashboard (py-dashboard-dash)

Shallow embedding of the core data-access, filtering, caching, auth and RBAC
logic of the dashboard, together with theorems settling the specification
claims about it.

Conventions of the embedding:
* A pandas `DataFrame` of analytics facts is a `List Record`; row order and
  multiplicity are preserved, matching boolean-mask row selection.
* Python floats carrying money amounts are modelled as exact rationals `ℚ`.
  All literal inputs appearing in the claims are decimal values whose
  intermediate divisions by 1000 are exact in IEEE double precision, so the
  rational model agrees with the float computation on every input we evaluate.
* A calendar date is an `Int` encoded as `y*10000 + m*100 + d`; this encoding
  is strictly monotone in (y, m, d) for valid dates, so integer comparison
  agrees with chronological comparison used by pandas on `date` objects.
* Raising a Python exception is modelled as `Except.error`.
-/

/-! ## Data model: one analytics fact row (dashboard schema) -/

/-- One analytics fact row, the schema produced by every data provider
(`date, product, region, system, team, owner, status, revenue, cost, profit`). -/
structure Record where
  date : Int
  product : String
  region : String
  system : String
  team : String
  owner : String
  status : String
  revenue : ℚ
  cost : ℚ
  profit : ℚ
deriving DecidableEq, Repr

/-! ## Character / string helpers

`String.toLower`, `String.trim` and substring search are re-implemented on
`List Char` so that every definition reduces inside the kernel. ASCII case
folding is what the data uses (owner names are ASCII). -/

/-- ASCII lowering of one character, the case folding relevant to the data. -/
def lowerChar (c : Char) : Char :=
  if 'A' ≤ c ∧ c ≤ 'Z' then Char.ofNat (c.toNat + 32) else c

/-- Model of Python `str.lower()` on the ASCII data of this app. -/
def lowerStr (s : String) : String := ⟨s.data.map lowerChar⟩

/-- Whitespace recognized by Python `str.strip()` (the cases that occur here). -/
def isSpaceChar (c : Char) : Bool := c = ' ' ∨ c = '\t' ∨ c = '\n' ∨ c = '\r'

/-- Model of Python `str.strip()`: drop leading and trailing whitespace. -/
def trimStr (s : String) : String :=
  ⟨((s.data.dropWhile isSpaceChar).reverse.dropWhile isSpaceChar).reverse⟩

/-- `startsWithL l pre` is true when `pre` is an initial segment of `l`. -/
def startsWithL : List Char → List Char → Bool
  | _, [] => true
  | [], _ :: _ => false
  | a :: as, b :: bs => a == b && startsWithL as bs

/-- Model of Python `str.startswith`. -/
def strStartsWith (s pre : String) : Bool := startsWithL s.data pre.data

/-- `hasSubstr hay needle` is true when `needle` occurs contiguously in `hay`;
model of the plain-substring reading of `pandas.Series.str.contains`. -/
def hasSubstr : List Char → List Char → Bool
  | [], needle => needle.isEmpty
  | a :: as, needle => startsWithL (a :: as) needle || hasSubstr as needle

/-! ## Money formatting (`dashboard/utils.py`, `fmt_money`)

`fmt_money` repeatedly divides by 1000 through the unit suffixes
`"", "K", "M", "B"` while `abs(x) >= 1000`, then renders `f"{x:,.0f}"`.
The Python `.0f` formatting rounds to the nearest integer with ties going to the
even integer (IEEE round-half-even on the decimal rendering), and inserts a
thousands separator every three digits; both are modelled exactly.  The sign of
a negative zero float is not modelled (no claim touches it). -/

/-- Round a rational to the nearest integer, ties to the even integer:
the rounding performed by Python float formatting `f"{x:,.0f}"`. -/
def roundHalfEven (q : ℚ) : ℤ :=
  let f : ℤ := ⌊q⌋
  if q - f < 1/2 then f
  else if (1 : ℚ)/2 < q - f then f + 1
  else if f % 2 = 0 then f else f + 1

/-- Decimal digit character for `d % 10`. -/
def digitChar (d : Nat) : Char := Char.ofNat (48 + d % 10)

/-- Decimal digits of `n`, most significant first; `fuel` bounds recursion. -/
def natDigitsAux : Nat → Nat → List Char
  | 0, _ => []
  | _ + 1, 0 => []
  | fuel + 1, n => natDigitsAux fuel (n / 10) ++ [digitChar (n % 10)]

/-- Decimal digits of `n` (`['0']` for zero). -/
def natDigits (n : Nat) : List Char :=
  if n = 0 then ['0'] else natDigitsAux (n + 1) n

/-- Insert a comma after every three characters (used on reversed digits). -/
def group3 : List Char → List Char
  | a :: b :: c :: d :: rest => a :: b :: c :: ',' :: group3 (d :: rest)
  | ds => ds

/-- Render an integer with thousands separators, as `f"{x:,.0f}"` does after
rounding. -/
def intCommaFmt (i : ℤ) : String :=
  let ds := (group3 (natDigits i.natAbs).reverse).reverse
  ⟨if i < 0 then '-' :: ds else ds⟩

/-- Loop body of `fmt_money`: walk the unit suffixes, dividing by 1000 while
`abs(x) >= 1000`; fall through to `"T"` after the last unit. -/
def fmtMoneyGo : List String → ℚ → String
  | [], x => intCommaFmt (roundHalfEven x) ++ "T"
  | u :: units, x =>
      if |x| < 1000 then intCommaFmt (roundHalfEven x) ++ u
      else fmtMoneyGo units (x / 1000)

/-- `fmt_money` from `dashboard/utils.py`. -/
def fmt_money (x : ℚ) : String := fmtMoneyGo ["", "K", "M", "B"] x

/-! ## Claims normalization and auth guard (`dashboard/auth.py`) -/

/-- The fixed alias table of `JWTClaims.normalize_role` (a Python dict with
literal string keys; lookup is exact and case-sensitive). -/
def role_map : List (String × String) :=
  [("CIO", "CIO"),
   ("ChiefInformationOfficer", "CIO"),
   ("Architect", "Architect"),
   ("EnterpriseArchitect", "Architect"),
   ("SystemArchitect", "Architect"),
   ("SolutionArchitect", "Architect"),
   ("Developer", "Developer"),
   ("Engineer", "Developer")]

/-- `JWTClaims.normalize_role`: a non-string (modelled `none`) or falsy (empty)
raw value becomes `"Developer"`; then the alias table is consulted with
`"Developer"` as the default for unmatched values. -/
def normalize_role (v : Option String) : String :=
  let role := match v with
    | some s => if s = "" then "Developer" else s
    | none => "Developer"
  (role_map.lookup role).getD "Developer"

/-- Normalized JWT claims (`JWTClaims.model_dump()`): the dict always carries
all five keys; `name`/`team` may be `None`. -/
structure JWTClaims where
  sub : String
  name : Option String
  role : String
  team : Option String
  exp : Int
deriving DecidableEq, Repr

/-- `AuthService.default_claims`: the fixed development identity, with the role
passed through the same normalization validator as verified tokens.
`now` stands for `int(time.time())`. -/
def default_claims (now : Int) : JWTClaims :=
  { sub := "devuser@example.com"
    name := some "Dev User"
    role := normalize_role (some "Developer")
    team := some "Platform"
    exp := now + 3600 }

/-- Outcome of the `before_request` guard, tagged by which code path set
(or did not set) `g.claims`: exempt paths return without claims, the
disabled-auth branch installs `default_claims()`, successful verification
installs the verified claims, and `abort(401)` installs nothing. -/
inductive AuthResult where
  | exemptPass
  | allowDefault (claims : JWTClaims)
  | allowVerified (claims : JWTClaims)
  | reject401
deriving DecidableEq, Repr

/-- The configuration consulted by the guard (`settings.disable_auth`).
Issuer/audience/secret only parameterize the verifier below. -/
structure AuthSettings where
  disable_auth : Bool
deriving DecidableEq, Repr

/-- Paths exempt from authentication: `path.startswith("/assets")` or
`path == "/health"`. -/
def isExemptPath (path : String) : Bool :=
  strStartsWith path "/assets" || path == "/health"

/-- The `require_auth` guard registered by `AuthService.init_app`. The composite
`_decode_jwt` + `JWTClaims.model_validate` step is abstracted as `verify`;
it returns `none` exactly when that step raises (bad signature, expired,
malformed, missing required claims/issuer/audience), which the source catches
and turns into `abort(401)`. -/
def require_auth (s : AuthSettings) (verify : String → Option JWTClaims)
    (now : Int) (path : String) (authHeader : Option String) : AuthResult :=
  if isExemptPath path then .exemptPass
  else if s.disable_auth then .allowDefault (default_claims now)
  else
    let auth := authHeader.getD ""
    if strStartsWith auth "Bearer " then
      let token := trimStr ⟨auth.data.drop 7⟩
      match verify token with
      | none => .reject401
      | some claims => .allowVerified claims
    else .reject401

/-! ## Cache facade and repository data access
(`dashboard/datasources/cache.py`, `repository.py`)

The key-value cache backend is explicit state (`LoadState.cache`), and
`loaderCalls` counts invocations of the underlying uncached loader; the claims
under test quantify over calls made inside the cache-entry timeout window, so
entries present in the state are unexpired by assumption. -/

/-- Key-value store of the cache backend: cache key to cached dataset. -/
abbrev CacheMap := List (String × List Record)

/-- Cache backend state plus the count of underlying loader invocations. -/
structure LoadState where
  cache : CacheMap
  loaderCalls : Nat
deriving Repr

/-- One call to the loader wrapped by `CacheFacade.memoize`. With a real backend
(`hasBackend = true`) a hit returns the stored dataset without invoking
`loader`; a miss invokes it and stores the result. With no backend, `memoize`
returns `loader` unchanged, so every call invokes it. -/
def memoizedCall (hasBackend : Bool) (loader : String → List Record)
    (key : String) (st : LoadState) : List Record × LoadState :=
  if hasBackend then
    match st.cache.lookup key with
    | some v => (v, st)
    | none =>
        let v := loader key
        (v, { cache := (key, v) :: st.cache, loaderCalls := st.loaderCalls + 1 })
  else (loader key, { st with loaderCalls := st.loaderCalls + 1 })

/-- `DataRepository.get_data`: key is `force_key` when truthy (Python: a
non-`None`, non-empty string), else the day key; the final `df.copy()` is
the identity on immutable lists. -/
def get_data (hasBackend : Bool) (loader : String → List Record)
    (todayK : String) (forceKey : Option String) (st : LoadState) :
    List Record × LoadState :=
  let key := match forceKey with
    | some k => if k = "" then todayK else k
    | none => todayK
  memoizedCall hasBackend loader key st

/-! ## Row capping (`DataRepository.load_uncached`)

`df.sample(max_rows, random_state=1)` draws a seeded pseudo-random sample
without replacement.  The embedding uses a concrete deterministic
LCG-driven selection with the fixed seed 1: the claims under test concern the
size of the sample and its determinism, which hold for any fixed-seed
selection-without-replacement scheme; the exact numpy bit stream is not
reproduced. -/

/-- One step of a 32-bit linear congruential generator (fixed constants). -/
def lcgNext (state : Nat) : Nat := (state * 1664525 + 1013904223) % 4294967296

/-- Draw up to `n` elements without replacement, driven by the LCG stream. -/
def sampleGo {α : Type} : Nat → Nat → List α → List α → List α
  | 0, _, _, acc => acc.reverse
  | n + 1, st, xs, acc =>
      if h : 0 < xs.length then
        let st' := lcgNext st
        let i := st' % xs.length
        sampleGo n st' (xs.eraseIdx i) (xs.get ⟨i, Nat.mod_lt _ h⟩ :: acc)
      else acc.reverse

/-- `df.sample(n, random_state=1)`: seeded deterministic sample of `n` rows. -/
def sampleSeeded {α : Type} (xs : List α) (n : Nat) : List α := sampleGo n 1 xs []

/-- `DataRepository.load_uncached`: invoke the provider (its output is the
argument), cap with a seeded sample when the row count exceeds
`settings.max_rows`, and normalize the date column.  Date normalization
(`pd.to_datetime(df["date"]).dt.date`) is the identity on the embedded
calendar-date representation.  Note the source does not touch `profit`. -/
def load_uncached (maxRows : Nat) (providerOutput : List Record) : List Record :=
  if maxRows < providerOutput.length then sampleSeeded providerOutput maxRows
  else providerOutput

/-- The `df["profit"] = df["revenue"] - df["cost"]` assignment that each of the
three providers (synthetic.py line 37, rest.py line 44, sql.py line 28)
performs on its frame immediately before returning it. -/
def with_profit (df : List Record) : List Record :=
  df.map fun r => { r with profit := r.revenue - r.cost }

/-! ## Filter specification and validation (`dashboard/callbacks.py`)

The Pydantic `Filters` model: `agg` is `Literal["sum", "mean"]` (any other
value raises `ValidationError`); the date fields are plain `Optional[str]` and
are NOT validated; `owner_query` is stripped, with the empty result collapsing
to `None`.  Multi-select inputs arrive from Dash as optional string lists
(`ensure_list` additionally wraps scalars, which the list-typed embedding
renders moot). -/

/-- Validated filter specification (`Filters.model_dump`-shaped). -/
structure Filters where
  start_date : Option String
  end_date : Option String
  products : Option (List String)
  regions : Option (List String)
  systems : Option (List String)
  teams : Option (List String)
  min_profit : Option ℚ
  owner_query : Option String
  agg : String
  groupby : String
deriving DecidableEq, Repr

/-- The `normalize_query` validator on `owner_query`: strip, empty to `None`. -/
def normalize_query (v : Option String) : Option String :=
  match v with
  | none => none
  | some s => if trimStr s = "" then none else some (trimStr s)

/-- Construction of `Filters(...)`: `none` models `ValidationError` (raised
exactly when `agg` is not one of the two literals; no other field of the
embedded input can fail validation). -/
def mkFilters (start_date end_date : Option String)
    (products regions systems teams : Option (List String))
    (min_profit : Option ℚ) (owner_query : Option String)
    (agg groupby : String) : Option Filters :=
  if agg = "sum" ∨ agg = "mean" then
    some { start_date := start_date
           end_date := end_date
           products := products
           regions := regions
           systems := systems
           teams := teams
           min_profit := min_profit
           owner_query := normalize_query owner_query
           agg := agg
           groupby := groupby }
  else none

/-! ## Date parsing (`pd.to_datetime(...).date()`) -/

/-- Value of a non-empty all-digit character run. -/
def digitsVal (l : List Char) : Option Nat :=
  match l with
  | [] => none
  | _ :: _ =>
      l.foldl (fun acc c =>
        match acc with
        | none => none
        | some n => if c.isDigit then some (n * 10 + (c.toNat - 48)) else none)
        (some 0)

/-- Split a character list on a separator character. -/
def splitOnChar (sep : Char) : List Char → List (List Char)
  | [] => [[]]
  | c :: cs =>
      let rest := splitOnChar sep cs
      if c = sep then [] :: rest
      else match rest with
        | [] => [[c]]
        | r :: rs => (c :: r) :: rs

/-- Modelled from the spec: the source calls `pd.to_datetime(s)`; the model
restricts it to the ISO `YYYY-MM-DD` strings the date controls produce: returns the encoded
calendar date, or `none` when pandas would raise a parse error. -/
def parseDate (s : String) : Option Int :=
  match (splitOnChar '-' s.data).map digitsVal with
  | [some y, some m, some d] =>
      if 1 ≤ m ∧ m ≤ 12 ∧ 1 ≤ d ∧ d ≤ 31 then
        some ((y : Int) * 10000 + (m : Int) * 100 + (d : Int))
      else none
  | _ => none

/-! ## The row filter `_filter_df` (`dashboard/callbacks.py` lines 44-63)

Each stage is skipped when its spec field is Python-falsy; the two date stages
raise (modelled `Except.error`) when `pd.to_datetime` cannot parse the string.
Stage order matches the source: start date, end date, product, region, system,
team, owner substring, minimum profit. -/

/-- One conditional boolean-mask row selection (`df = df[mask]` under `if c:`). -/
def condFilter {α : Type} (c : Bool) (p : α → Bool) (l : List α) : List α :=
  if c then l.filter p else l

/-- One date-bound stage: skipped for `None` or `""` (falsy), raising when the
date string does not parse. -/
def dateStage (sd : Option String) (p : Int → Record → Bool)
    (df : List Record) : Except Unit (List Record) :=
  match sd with
  | none => Except.ok df
  | some s =>
      if s = "" then Except.ok df
      else
        match parseDate s with
        | some d => Except.ok (df.filter (p d))
        | none => Except.error ()

/-- Python truthiness of an optional list (`if products:`). -/
def listActive (o : Option (List String)) : Bool :=
  match o with
  | some (_ :: _) => true
  | _ => false

/-- The underlying list of an optional list field. -/
def getList (o : Option (List String)) : List String := o.getD []

/-- Python truthiness of an optional string (`if owner_query:`). -/
def strActive (o : Option String) : Bool :=
  match o with
  | some s => s != ""
  | none => false

/-- The owner predicate: `df["owner"].str.lower().str.contains(q, na=False)`
with `q = owner_query.strip().lower()`, read as plain substring containment. -/
def ownerPred (q : String) (r : Record) : Bool :=
  hasSubstr (lowerStr r.owner).data (lowerStr (trimStr q)).data

/-- The six always-pure stages of `_filter_df` (product, region, system, team,
owner substring, minimum profit), applied in source order after the two date
stages. -/
def pureStages (flt : Filters) (df2 : List Record) : List Record :=
  condFilter flt.min_profit.isSome
    (fun r => decide ((flt.min_profit.getD 0) ≤ r.profit))
    (condFilter (strActive flt.owner_query)
      (ownerPred (flt.owner_query.getD ""))
      (condFilter (listActive flt.teams)
        (fun r => (getList flt.teams).contains r.team)
        (condFilter (listActive flt.systems)
          (fun r => (getList flt.systems).contains r.system)
          (condFilter (listActive flt.regions)
            (fun r => (getList flt.regions).contains r.region)
            (condFilter (listActive flt.products)
              (fun r => (getList flt.products).contains r.product) df2)))))

/-- `_filter_df` from `dashboard/callbacks.py`: the two date stages may raise,
and the exception propagates; the rest are pure row selections. -/
def filter_df (df : List Record) (flt : Filters) : Except Unit (List Record) :=
  match dateStage flt.start_date (fun d r => decide (d ≤ r.date)) df with
  | Except.error e => Except.error e
  | Except.ok df1 =>
      match dateStage flt.end_date (fun d r => decide (r.date ≤ d)) df1 with
      | Except.error e => Except.error e
      | Except.ok df2 => Except.ok (pureStages flt df2)

/-! ## The reactive update callback `update_viz`
(`dashboard/callbacks.py` lines 121-208)

The embedding keeps the control flow and the data outputs (KPI scalars and the
table row set); the plotly figure dictionaries built from the same filtered
frame are rendering payload and are not modelled.  `todayDate` stands for
`dt.date.today()`. -/

/-- KPI scalars and the table row set produced by a successful update. -/
structure VizPayload where
  kpi_rev : ℚ
  kpi_cost : ℚ
  kpi_profit : ℚ
  kpi_red : Nat
  table : List Record
deriving DecidableEq, Repr

/-- Output of one `update_viz` invocation: either the degraded empty-result
state (empty KPIs, empty figures, empty table) or a rendered payload. -/
inductive VizOutput where
  | emptyState
  | rendered (payload : VizPayload)
deriving DecidableEq, Repr

/-- Sum of one money column over the filtered rows (`0` when empty, as the
source arranges with `if not fdf.empty else 0.0`). -/
def sumBy (f : Record → ℚ) (l : List Record) : ℚ := (l.map f).sum

/-- `red_count`: number of distinct systems with status Red on the reference
date (`nunique` over the masked frame). -/
def red_count (fdf : List Record) (todayD : Int) : Nat :=
  (((fdf.filter fun r => r.date == todayD && r.status == "Red").map
    fun r => r.system).dedup).length

/-- `update_viz`: empty store short-circuits to the empty state; a
`ValidationError` from `Filters(...)` is caught and yields the empty state;
`_filter_df` is NOT guarded, so its exceptions propagate (`Except.error`). -/
def update_viz (data_json : List Record)
    (start_date end_date : Option String)
    (products regions systems teams : Option (List String))
    (min_profit : Option ℚ) (owner_query : Option String)
    (agg groupby : String) (todayDate : Int) : Except Unit VizOutput :=
  if data_json.isEmpty then Except.ok VizOutput.emptyState
  else
    match mkFilters start_date end_date products regions systems teams
        min_profit owner_query agg groupby with
    | none => Except.ok VizOutput.emptyState
    | some flt =>
        match filter_df data_json flt with
        | Except.error e => Except.error e
        | Except.ok fdf =>
            let today := match end_date with
              | some s => if s = "" then todayDate else (parseDate s).getD todayDate
              | none => todayDate
            Except.ok (VizOutput.rendered
              { kpi_rev := sumBy (fun r => r.revenue) fdf
                kpi_cost := sumBy (fun r => r.cost) fdf
                kpi_profit := sumBy (fun r => r.profit) fdf
                kpi_red := red_count fdf today
                table := fdf })

/-! ## RBAC row-level narrowing (`bootstrap_data`, callbacks.py lines 87-91) -/

/-- The RBAC narrowing step of `bootstrap_data`:
`role = (claims or \x7b\x7d).get("role", "Developer")`,
`team = (claims or \x7b\x7d).get("team")`, and the frame is narrowed only when
`role == "Developer" and team` (Python truthiness: a present but empty team
string does not narrow). -/
def rbac_narrow (claims : Option JWTClaims) (df : List Record) : List Record :=
  let role := match claims with
    | none => "Developer"
    | some c => c.role
  let team := match claims with
    | none => none
    | some c => c.team
  match team with
  | some t => if role = "Developer" ∧ t ≠ "" then df.filter (fun r => r.team == t) else df
  | none => df

/-! ## Supporting lemmas -/

/-- Unfolding step of the `fmt_money` loop when the value is still large. -/
theorem fmtMoneyGo_step (u : String) (units : List String) (x : ℚ)
    (h : ¬ |x| < 1000) :
    fmtMoneyGo (u :: units) x = fmtMoneyGo units (x / 1000) := by
  simp [fmtMoneyGo, h]

/-- Final step of the `fmt_money` loop once the value is below 1000. -/
theorem fmtMoneyGo_last (u : String) (units : List String) (x : ℚ)
    (h : |x| < 1000) :
    fmtMoneyGo (u :: units) x = intCommaFmt (roundHalfEven x) ++ u := by
  simp [fmtMoneyGo, h]

/-- The seeded sample draws exactly `min n xs.length` fresh elements. -/
theorem sampleGo_length {α : Type} :
    ∀ (n st : Nat) (xs acc : List α),
      (sampleGo n st xs acc).length = min n xs.length + acc.length := by
  intro n
  induction n with
  | zero => intro st xs acc; simp [sampleGo]
  | succ n ih =>
      intro st xs acc
      unfold sampleGo
      by_cases h : 0 < xs.length
      · have hi : lcgNext st % xs.length < xs.length := Nat.mod_lt _ h
        rw [dif_pos h, ih, List.length_eraseIdx, if_pos hi]
        simp only [List.length_cons]
        omega
      · rw [dif_neg h]
        simp only [List.length_reverse]
        omega

/-- Every element produced by the seeded sample comes from the input pool or
the accumulator. -/
theorem sampleGo_subset {α : Type} :
    ∀ (n st : Nat) (xs acc : List α) (a : α),
      a ∈ sampleGo n st xs acc → a ∈ xs ∨ a ∈ acc := by
  intro n
  induction n with
  | zero => intro st xs acc a ha; simp [sampleGo] at ha; exact Or.inr ha
  | succ n ih =>
      intro st xs acc a ha
      unfold sampleGo at ha
      by_cases h : 0 < xs.length
      · rw [dif_pos h] at ha
        rcases ih _ _ _ _ ha with h1 | h1
        · exact Or.inl (List.eraseIdx_subset _ _ h1)
        · rcases List.mem_cons.mp h1 with h2 | h2
          · subst h2; exact Or.inl (List.get_mem _ _ _)
          · exact Or.inr h2
      · rw [dif_neg h] at ha
        simp at ha
        exact Or.inr ha

/-- Rows returned by `load_uncached` are rows of the provider output. -/
theorem load_uncached_mem {maxRows : Nat} {df : List Record} :
    ∀ r ∈ load_uncached maxRows df, r ∈ df := by
  intro r hr
  unfold load_uncached at hr
  split at hr
  · unfold sampleSeeded at hr
    rcases sampleGo_subset _ _ _ _ _ hr with h | h
    · exact h
    · simp at h
  · exact hr

/-- A conditional row selection only keeps rows of its input. -/
theorem condFilter_subset {α : Type} {c : Bool} {p : α → Bool} {l : List α} :
    ∀ a ∈ condFilter c p l, a ∈ l := by
  intro a ha
  unfold condFilter at ha
  split at ha
  · exact (List.mem_filter.mp ha).1
  · exact ha

/-- Rows surviving an active conditional selection satisfy its predicate. -/
theorem condFilter_mem_pred {α : Type} {c : Bool} {p : α → Bool} {l : List α}
    {a : α} (ha : a ∈ condFilter c p l) (hc : c = true) : p a = true := by
  unfold condFilter at ha
  rw [hc, if_pos rfl] at ha
  exact (List.mem_filter.mp ha).2

/-- A conditional selection fixes any list of rows that already survived it. -/
theorem condFilter_self {α : Type} {c : Bool} {p : α → Bool} {lin out l : List α}
    (h : condFilter c p lin = out) (hsub : ∀ a ∈ l, a ∈ out) :
    condFilter c p l = l := by
  unfold condFilter at h ⊢
  by_cases hc : c = true
  · rw [if_pos hc] at h ⊢
    subst h
    exact List.filter_eq_self.mpr fun a ha => (List.mem_filter.mp (hsub a ha)).2
  · simp at hc
    rw [hc]
    simp

/-- Rows surviving a date stage are rows of its input. -/
theorem dateStage_subset {sd : Option String} {p : Int → Record → Bool}
    {df out : List Record} (h : dateStage sd p df = Except.ok out) :
    ∀ r ∈ out, r ∈ df := by
  cases sd with
  | none =>
      simp only [dateStage] at h
      injection h with h; subst h; exact fun r hr => hr
  | some s =>
      simp only [dateStage] at h
      by_cases hs : s = ""
      · rw [if_pos hs] at h; injection h with h; subst h; exact fun r hr => hr
      · rw [if_neg hs] at h
        cases hp : parseDate s with
        | some d =>
            rw [hp] at h; injection h with h; subst h
            exact fun r hr => (List.mem_filter.mp hr).1
        | none => rw [hp] at h; cases h

/-- A date stage that succeeded once fixes any list of rows that survived it. -/
theorem dateStage_self {sd : Option String} {p : Int → Record → Bool}
    {df out l : List Record} (h : dateStage sd p df = Except.ok out)
    (hsub : ∀ r ∈ l, r ∈ out) : dateStage sd p l = Except.ok l := by
  cases sd with
  | none => rfl
  | some s =>
      simp only [dateStage] at h ⊢
      by_cases hs : s = ""
      · rw [if_pos hs]
      · rw [if_neg hs] at h ⊢
        cases hp : parseDate s with
        | some d =>
            rw [hp] at h
            injection h with h
            subst h
            show Except.ok (List.filter (p d) l) = Except.ok l
            congr 1
            exact List.filter_eq_self.mpr
              fun r hr => (List.mem_filter.mp (hsub r hr)).2
        | none => rw [hp] at h; cases h

/-- Rows surviving the six pure stages are rows of their input. -/
theorem pureStages_subset {flt : Filters} {df2 : List Record} :
    ∀ r ∈ pureStages flt df2, r ∈ df2 := by
  intro r hr
  unfold pureStages at hr
  exact condFilter_subset _ (condFilter_subset _ (condFilter_subset _
    (condFilter_subset _ (condFilter_subset _ (condFilter_subset _ hr)))))

/-- The six pure stages fix any list of rows that already survived them. -/
theorem pureStages_self {flt : Filters} {df2 out l : List Record}
    (h : pureStages flt df2 = out) (hsub : ∀ r ∈ l, r ∈ out) :
    pureStages flt l = l := by
  unfold pureStages at h ⊢
  subst h
  have s6 : ∀ r ∈ l, r ∈ condFilter (strActive flt.owner_query)
      (ownerPred (flt.owner_query.getD ""))
      (condFilter (listActive flt.teams)
        (fun r => (getList flt.teams).contains r.team)
        (condFilter (listActive flt.systems)
          (fun r => (getList flt.systems).contains r.system)
          (condFilter (listActive flt.regions)
            (fun r => (getList flt.regions).contains r.region)
            (condFilter (listActive flt.products)
              (fun r => (getList flt.products).contains r.product) df2)))) :=
    fun r hr => condFilter_subset _ (hsub r hr)
  have s5 : ∀ r ∈ l, r ∈ condFilter (listActive flt.teams)
      (fun r => (getList flt.teams).contains r.team)
      (condFilter (listActive flt.systems)
        (fun r => (getList flt.systems).contains r.system)
        (condFilter (listActive flt.regions)
          (fun r => (getList flt.regions).contains r.region)
          (condFilter (listActive flt.products)
            (fun r => (getList flt.products).contains r.product) df2))) :=
    fun r hr => condFilter_subset _ (s6 r hr)
  have s4 : ∀ r ∈ l, r ∈ condFilter (listActive flt.systems)
      (fun r => (getList flt.systems).contains r.system)
      (condFilter (listActive flt.regions)
        (fun r => (getList flt.regions).contains r.region)
        (condFilter (listActive flt.products)
          (fun r => (getList flt.products).contains r.product) df2)) :=
    fun r hr => condFilter_subset _ (s5 r hr)
  have s3 : ∀ r ∈ l, r ∈ condFilter (listActive flt.regions)
      (fun r => (getList flt.regions).contains r.region)
      (condFilter (listActive flt.products)
        (fun r => (getList flt.products).contains r.product) df2) :=
    fun r hr => condFilter_subset _ (s4 r hr)
  have s2 : ∀ r ∈ l, r ∈ condFilter (listActive flt.products)
      (fun r => (getList flt.products).contains r.product) df2 :=
    fun r hr => condFilter_subset _ (s3 r hr)
  rw [condFilter_self rfl s2, condFilter_self rfl s3, condFilter_self rfl s4,
      condFilter_self rfl s5, condFilter_self rfl s6, condFilter_self rfl hsub]

/-- Every role value the alias table can yield is one of the three canonical
roles. -/
theorem normalize_role_total (v : Option String) :
    normalize_role v = "CIO" ∨ normalize_role v = "Architect"
      ∨ normalize_role v = "Developer" := by
  cases v with
  | none => right; right; rfl
  | some s =>
      by_cases hs : s = ""
      · subst hs; right; right; rfl
      · unfold normalize_role role_map
        simp only [hs, if_false, List.lookup]
        (repeat' split) <;> decide

/-! ## Claim theorems -/

/-- C1 (corrected, counterexample): the claim says `load_uncached` recomputes
the profit column unconditionally after the provider returns; it does not.
A provider output whose single row has `profit = 0` but `revenue - cost = 4`
passes through `load_uncached` unchanged, so the returned dataset contains a
row violating `profit == revenue - cost`. -/
theorem load_uncached_no_profit_recompute_cex :
    ((load_uncached 7000
      [{ date := 20250101, product := "Alpha", region := "EMEA", system := "Web",
         team := "Data", owner := "alice", status := "Green",
         revenue := 5, cost := 1, profit := 0 }]).all
      fun r => r.profit == r.revenue - r.cost) = false := by
  show (([{ date := 20250101, product := "Alpha", region := "EMEA", system := "Web",
            team := "Data", owner := "alice", status := "Green",
            revenue := 5, cost := 1, profit := 0 }] : List Record).all
      fun r => r.profit == r.revenue - r.cost) = false
  simp only [List.all_cons, List.all_nil, Bool.and_true, beq_eq_false_iff_ne, ne_eq]
  norm_num

/-- C1 (amended): `load_uncached` preserves the profit column it receives; the
profit invariant holds for every dataset that reaches the Repository through a
built-in provider, because each of the three providers performs
`df["profit"] = df["revenue"] - df["cost"]` (`with_profit`) immediately before
returning, and capping plus date normalization keep rows intact. -/
theorem load_uncached_profit_from_providers (maxRows : Nat) (df : List Record) :
    ((load_uncached maxRows (with_profit df)).all
      fun r => r.profit == r.revenue - r.cost) = true := by
  rw [List.all_eq_true]
  intro r hr
  have hmem : r ∈ with_profit df := load_uncached_mem r hr
  unfold with_profit at hmem
  rcases List.mem_map.mp hmem with ⟨a, -, rfl⟩
  simp

/-- C2 (corrected, counterexample): the claim says an unparseable date string
never makes the update pipeline raise; in fact `Filters` does not validate
date strings, and `_filter_df` calls `pd.to_datetime` on them, which raises.
With a nonempty store, a valid aggregation mode, and `start_date = "garbage"`,
`update_viz` propagates the exception. -/
theorem update_viz_unparseable_date_raises_cex :
    update_viz
      [{ date := 20250101, product := "Alpha", region := "EMEA", system := "Web",
         team := "Data", owner := "alice", status := "Green",
         revenue := 5, cost := 1, profit := 4 }]
      (some "garbage") none none none none none none none "sum" "date" 20250101
      = Except.error () := rfl

/-- C2 (amended): an invalid aggregation mode is rejected by the Pydantic
`Filters` validation inside `update_viz`, which catches the `ValidationError`
and returns the empty-result state instead of raising; unparseable date
strings, by contrast, pass validation and raise inside `_filter_df`. -/
theorem update_viz_invalid_agg_empty_state (data_json : List Record)
    (start_date end_date : Option String)
    (products regions systems teams : Option (List String))
    (min_profit : Option ℚ) (owner_query : Option String)
    (agg groupby : String) (todayDate : Int)
    (h1 : agg ≠ "sum") (h2 : agg ≠ "mean") :
    update_viz data_json start_date end_date products regions systems teams
      min_profit owner_query agg groupby todayDate
      = Except.ok VizOutput.emptyState := by
  have hmk : mkFilters start_date end_date products regions systems teams
      min_profit owner_query agg groupby = none := by
    unfold mkFilters
    rw [if_neg]
    rintro (h | h) <;> [exact h1 h; exact h2 h]
  unfold update_viz
  rw [hmk]
  simp

/-- Witness for C2: a nonempty store and the invalid aggregation mode `"avg"`
produce the empty-result state. -/
theorem update_viz_invalid_agg_empty_state_witness :
    ("avg" : String) ≠ "sum" ∧ ("avg" : String) ≠ "mean" ∧
    update_viz
      [{ date := 20250101, product := "Alpha", region := "EMEA", system := "Web",
         team := "Data", owner := "alice", status := "Green",
         revenue := 5, cost := 1, profit := 4 }]
      none none none none none none none none "avg" "date" 20250101
      = Except.ok VizOutput.emptyState :=
  ⟨by decide, by decide,
    update_viz_invalid_agg_empty_state _ none none none none none none none none
      "avg" "date" 20250101 (by decide) (by decide)⟩

/-- C3 (code bug at 1500000000): the literal money-formatting cases.
`fmt_money` divides by 1000 through the unit suffixes while the absolute value
is at least 1000 and rounds only at the final unit; the rounding is
round-half-even, so `fmt_money 1500000000` is `"2B"` (the value reaches
exactly 3/2 at unit B and the tie rounds to the even integer 2), while the
claim and the test `test_utils.py` assert `"1B"`. All other literal cases
evaluate as claimed. -/
theorem fmt_money_literal_cases :
    fmt_money 0 = "0" ∧ fmt_money 999 = "999" ∧ fmt_money 12300 = "12K"
    ∧ fmt_money 12900 = "13K" ∧ fmt_money 7000000 = "7M"
    ∧ fmt_money 1500000000 = "2B" ∧ fmt_money 2000000000000 = "2T" := by
  refine ⟨?_, ?_, ?_, ?_, ?_, ?_, ?_⟩
  · unfold fmt_money fmtMoneyGo
    norm_num
    unfold roundHalfEven
    norm_num
    decide
  · unfold fmt_money
    rw [fmtMoneyGo_last _ _ _ (by norm_num)]
    have h : roundHalfEven 999 = 999 := by unfold roundHalfEven; norm_num
    rw [h]
    decide
  · unfold fmt_money
    rw [fmtMoneyGo_step _ _ _ (by norm_num),
        show ((12300 : ℚ) / 1000) = 123/10 by norm_num,
        fmtMoneyGo_last _ _ _ (abs_lt.mpr (by constructor <;> norm_num))]
    have h : roundHalfEven (123/10) = 12 := by unfold roundHalfEven; norm_num
    rw [h]
    decide
  · unfold fmt_money
    rw [fmtMoneyGo_step _ _ _ (by norm_num),
        show ((12900 : ℚ) / 1000) = 129/10 by norm_num,
        fmtMoneyGo_last _ _ _ (abs_lt.mpr (by constructor <;> norm_num))]
    have h : roundHalfEven (129/10) = 13 := by unfold roundHalfEven; norm_num
    rw [h]
    decide
  · unfold fmt_money
    rw [fmtMoneyGo_step _ _ _ (by norm_num),
        show ((7000000 : ℚ) / 1000) = 7000 by norm_num,
        fmtMoneyGo_step _ _ _ (by norm_num),
        show ((7000 : ℚ) / 1000) = 7 by norm_num,
        fmtMoneyGo_last _ _ _ (by norm_num)]
    have h : roundHalfEven 7 = 7 := by unfold roundHalfEven; norm_num
    rw [h]
    decide
  · unfold fmt_money
    rw [fmtMoneyGo_step _ _ _ (by norm_num),
        show ((1500000000 : ℚ) / 1000) = 1500000 by norm_num,
        fmtMoneyGo_step _ _ _ (by norm_num),
        show ((1500000 : ℚ) / 1000) = 1500 by norm_num,
        fmtMoneyGo_step _ _ _ (by norm_num),
        show ((1500 : ℚ) / 1000) = 3/2 by norm_num,
        fmtMoneyGo_last _ _ _ (abs_lt.mpr (by constructor <;> norm_num))]
    have h : roundHalfEven (3/2) = 2 := by unfold roundHalfEven; norm_num
    rw [h]
    decide
  · unfold fmt_money
    rw [fmtMoneyGo_step _ _ _ (by norm_num),
        show ((2000000000000 : ℚ) / 1000) = 2000000000 by norm_num,
        fmtMoneyGo_step _ _ _ (by norm_num),
        show ((2000000000 : ℚ) / 1000) = 2000000 by norm_num,
        fmtMoneyGo_step _ _ _ (by norm_num),
        show ((2000000 : ℚ) / 1000) = 2000 by norm_num,
        fmtMoneyGo_step _ _ _ (by norm_num),
        show ((2000 : ℚ) / 1000) = 2 by norm_num]
    show intCommaFmt (roundHalfEven 2) ++ "T" = "2T"
    have h : roundHalfEven 2 = 2 := by unfold roundHalfEven; norm_num
    rw [h]
    decide

/-- C4 (confirmed): with authentication enabled and a non-exempt path, a
missing or non-Bearer Authorization header is rejected with 401, a Bearer
token that fails verification is rejected with 401, and the guard never
installs the default development claims; the `allowDefault` path is reachable
only when `disable_auth` is set. -/
theorem require_auth_rejects_unverified (s : AuthSettings)
    (verify : String → Option JWTClaims) (now : Int) (path : String)
    (hdr : Option String)
    (hpath : isExemptPath path = false) (hdis : s.disable_auth = false) :
    (strStartsWith (hdr.getD "") "Bearer " = false →
      require_auth s verify now path hdr = AuthResult.reject401)
    ∧ (verify (trimStr ⟨(hdr.getD "").data.drop 7⟩) = none →
      require_auth s verify now path hdr = AuthResult.reject401)
    ∧ (∀ c, require_auth s verify now path hdr ≠ AuthResult.allowDefault c) := by
  refine ⟨?_, ?_, ?_⟩
  · intro hb
    simp [require_auth, hpath, hdis, hb]
  · intro hv
    by_cases hb : strStartsWith (hdr.getD "") "Bearer " = true
    · simp [require_auth, hpath, hdis, hb, hv]
    · simp only [Bool.not_eq_true] at hb
      simp [require_auth, hpath, hdis, hb]
  · intro c
    by_cases hb : strStartsWith (hdr.getD "") "Bearer " = true
    · cases hv : verify (trimStr ⟨(hdr.getD "").data.drop 7⟩) with
      | none => simp [require_auth, hpath, hdis, hb, hv]
      | some cl => simp [require_auth, hpath, hdis, hb, hv]
    · simp only [Bool.not_eq_true] at hb
      simp [require_auth, hpath, hdis, hb]

/-- Witness for C4: a request to `/page` with no Authorization header, auth
enabled and a verifier that always fails, is rejected with 401. -/
theorem require_auth_rejects_unverified_witness :
    isExemptPath "/page" = false
    ∧ (AuthSettings.mk false).disable_auth = false
    ∧ strStartsWith ((none : Option String).getD "") "Bearer " = false
    ∧ require_auth (AuthSettings.mk false) (fun _ => none) 0 "/page" none
        = AuthResult.reject401 :=
  ⟨by decide, rfl, by decide,
    (require_auth_rejects_unverified (AuthSettings.mk false) (fun _ => none) 0
      "/page" none (by decide) rfl).1 (by decide)⟩

/-- C5 (confirmed): with a real cache backend, two `get_data` calls with no
forced key within the timeout window invoke the underlying loader at most
once; each `get_data` call with a fresh forced key invokes the loader exactly
once more; and with no cache backend (`memoize` returning the loader
unchanged) every call invokes the loader. -/
theorem get_data_loader_call_bounds (loader : String → List Record)
    (tk : String) (st : LoadState) :
    ((get_data true loader tk none
        ((get_data true loader tk none st).2)).2).loaderCalls ≤ st.loaderCalls + 1
    ∧ (∀ k, k ≠ "" → st.cache.lookup k = none →
        ((get_data true loader tk (some k) st).2).loaderCalls = st.loaderCalls + 1)
    ∧ (∀ fk, ((get_data false loader tk fk st).2).loaderCalls
        = st.loaderCalls + 1) := by
  refine ⟨?_, ?_, ?_⟩
  · cases h : st.cache.lookup tk with
    | some v => simp [get_data, memoizedCall, h]
    | none => simp [get_data, memoizedCall, h, List.lookup]
  · intro k hk hlook
    simp [get_data, memoizedCall, hk, hlook]
  · intro fk
    cases fk with
    | none => simp [get_data, memoizedCall]
    | some k => by_cases hk : k = "" <;> simp [get_data, memoizedCall, hk]

/-- Witness for C5: from an empty cache, one `get_data` call with a fresh
forced key performs exactly one loader invocation. -/
theorem get_data_loader_call_bounds_witness :
    ("2025-01-15__99" : String) ≠ ""
    ∧ List.lookup "2025-01-15__99" ([] : CacheMap) = none
    ∧ ((get_data true (fun _ => []) "2025-01-15" (some "2025-01-15__99")
        (LoadState.mk [] 0)).2).loaderCalls = 0 + 1 :=
  ⟨by decide, rfl,
    (get_data_loader_call_bounds (fun _ => []) "2025-01-15"
      (LoadState.mk [] 0)).2.1 "2025-01-15__99" (by decide) rfl⟩

/-- C6 (corrected, counterexample): the claim says a Developer with a present
team claim always gets the dataset narrowed to that team; but narrowing is
guarded by Python truthiness, so a present-but-empty team string does not
narrow: the gated dataset keeps a row whose team is `"Data"`, while the rows
whose team equals the claim team (`""`) would be none. -/
theorem rbac_narrow_empty_team_present_cex :
    (List.all
      (rbac_narrow (some { sub := "u", name := none, role := "Developer",
                           team := some "", exp := 0 })
        [{ date := 20250101, product := "Alpha", region := "EMEA", system := "Web",
           team := "Data", owner := "alice", status := "Green",
           revenue := 5, cost := 1, profit := 4 }])
      fun r => r.team == "") = false := by decide

/-- C6 (amended): for a Developer with a present non-empty team claim the
gated dataset is exactly the rows whose team equals the claim team; for CIO or
Architect the dataset is unchanged; for a Developer with no team claim no
narrowing is applied (fail-open). -/
theorem rbac_narrow_role_team_cases (claims : Option JWTClaims)
    (df : List Record) :
    (∀ c t, claims = some c → c.role = "Developer" → c.team = some t → t ≠ "" →
      rbac_narrow claims df = df.filter fun r => r.team == t)
    ∧ (∀ c, claims = some c → c.role = "CIO" ∨ c.role = "Architect" →
      rbac_narrow claims df = df)
    ∧ (∀ c, claims = some c → c.team = none → rbac_narrow claims df = df) := by
  refine ⟨?_, ?_, ?_⟩
  · rintro c t rfl hrole hteam hne
    simp [rbac_narrow, hteam, hrole, hne]
  · rintro c rfl hrole
    cases hteam : c.team with
    | none => simp [rbac_narrow, hteam]
    | some t =>
        simp only [rbac_narrow, hteam]
        rw [if_neg]
        rintro ⟨hdev, -⟩
        rcases hrole with h | h <;> rw [h] at hdev <;> exact absurd hdev (by decide)
  · rintro c rfl hteam
    simp [rbac_narrow, hteam]

/-- Witness for C6: a Developer claim with team `"Data"` narrows a mixed-team
dataset to the team filter. -/
theorem rbac_narrow_role_team_cases_witness :
    ("Data" : String) ≠ ""
    ∧ rbac_narrow (some { sub := "u", name := none, role := "Developer",
                          team := some "Data", exp := 0 })
        [{ date := 20250101, product := "Alpha", region := "EMEA", system := "Web",
           team := "Data", owner := "alice", status := "Green",
           revenue := 5, cost := 1, profit := 4 },
         { date := 20250102, product := "Beta", region := "APAC", system := "Mobile",
           team := "Platform", owner := "bob", status := "Red",
           revenue := 7, cost := 2, profit := 5 }]
      = List.filter (fun r => r.team == "Data")
        [{ date := 20250101, product := "Alpha", region := "EMEA", system := "Web",
           team := "Data", owner := "alice", status := "Green",
           revenue := 5, cost := 1, profit := 4 },
         { date := 20250102, product := "Beta", region := "APAC", system := "Mobile",
           team := "Platform", owner := "bob", status := "Red",
           revenue := 7, cost := 2, profit := 5 }] :=
  ⟨by decide,
    (rbac_narrow_role_team_cases _ _).1 _ "Data" rfl rfl rfl (by decide)⟩

/-- C7 (confirmed): the row filter is idempotent — whenever `_filter_df`
succeeds on a dataset, applying it again with the same specification to its
own output returns that output unchanged. -/
theorem filter_df_idempotent (df out : List Record) (flt : Filters)
    (h : filter_df df flt = Except.ok out) :
    filter_df out flt = Except.ok out := by
  unfold filter_df at h
  split at h
  · simp at h
  · rename_i df1 h1
    split at h
    · simp at h
    · rename_i df2 h2
      injection h with h
      have hsub2 : ∀ r ∈ out, r ∈ df2 := by
        intro r hr; rw [← h] at hr; exact pureStages_subset r hr
      have hsub1 : ∀ r ∈ out, r ∈ df1 :=
        fun r hr => dateStage_subset h2 r (hsub2 r hr)
      unfold filter_df
      simp only [dateStage_self h1 hsub1, dateStage_self h2 hsub2,
        pureStages_self h fun r hr => hr]

/-- Witness for C7: filtering a two-row dataset by product keeps one row, and
filtering that output again with the same specification returns it unchanged. -/
theorem filter_df_idempotent_witness :
    filter_df
      [{ date := 20250101, product := "Alpha", region := "EMEA", system := "Web",
         team := "Data", owner := "alice", status := "Green",
         revenue := 5, cost := 1, profit := 4 },
       { date := 20250102, product := "Beta", region := "APAC", system := "Mobile",
         team := "Platform", owner := "bob", status := "Red",
         revenue := 7, cost := 2, profit := 5 }]
      { start_date := none, end_date := none, products := some ["Alpha"],
        regions := none, systems := none, teams := none, min_profit := none,
        owner_query := none, agg := "sum", groupby := "date" }
      = Except.ok
        [{ date := 20250101, product := "Alpha", region := "EMEA", system := "Web",
           team := "Data", owner := "alice", status := "Green",
           revenue := 5, cost := 1, profit := 4 }]
    ∧ filter_df
      [{ date := 20250101, product := "Alpha", region := "EMEA", system := "Web",
         team := "Data", owner := "alice", status := "Green",
         revenue := 5, cost := 1, profit := 4 }]
      { start_date := none, end_date := none, products := some ["Alpha"],
        regions := none, systems := none, teams := none, min_profit := none,
        owner_query := none, agg := "sum", groupby := "date" }
      = Except.ok
        [{ date := 20250101, product := "Alpha", region := "EMEA", system := "Web",
           team := "Data", owner := "alice", status := "Green",
           revenue := 5, cost := 1, profit := 4 }] :=
  ⟨rfl, filter_df_idempotent
    ([{ date := 20250101, product := "Alpha", region := "EMEA", system := "Web",
        team := "Data", owner := "alice", status := "Green",
        revenue := 5, cost := 1, profit := 4 },
      { date := 20250102, product := "Beta", region := "APAC", system := "Mobile",
        team := "Platform", owner := "bob", status := "Red",
        revenue := 7, cost := 2, profit := 5 }] : List Record)
    ([{ date := 20250101, product := "Alpha", region := "EMEA", system := "Web",
        team := "Data", owner := "alice", status := "Green",
        revenue := 5, cost := 1, profit := 4 }] : List Record)
    { start_date := none, end_date := none, products := some ["Alpha"],
      regions := none, systems := none, teams := none, min_profit := none,
      owner_query := none, agg := "sum", groupby := "date" }
    rfl⟩

/-- C8 (confirmed): when the provider output exceeds the configured maximum,
`load_uncached` returns exactly `maxRows` rows, and the fixed-seed sample makes
repeated calls on the same provider output return the same rows in the same
order (the embedded sampler is a pure function of the output and the fixed
seed, so equality of repeated calls is definitional). -/
theorem load_uncached_caps_deterministic (maxRows : Nat)
    (providerOutput : List Record) (h : maxRows < providerOutput.length) :
    (load_uncached maxRows providerOutput).length = maxRows
    ∧ load_uncached maxRows providerOutput
        = load_uncached maxRows providerOutput := by
  refine ⟨?_, rfl⟩
  unfold load_uncached sampleSeeded
  rw [if_pos h, sampleGo_length]
  simp only [List.length_nil]
  omega

/-- Witness for C8: capping a two-row provider output at one row returns
exactly one row. -/
theorem load_uncached_caps_deterministic_witness :
    1 < (([{ date := 20250101, product := "Alpha", region := "EMEA", system := "Web",
             team := "Data", owner := "alice", status := "Green",
             revenue := 5, cost := 1, profit := 4 },
           { date := 20250102, product := "Beta", region := "APAC", system := "Mobile",
             team := "Platform", owner := "bob", status := "Red",
             revenue := 7, cost := 2, profit := 5 }] : List Record).length)
    ∧ (load_uncached 1
      [{ date := 20250101, product := "Alpha", region := "EMEA", system := "Web",
         team := "Data", owner := "alice", status := "Green",
         revenue := 5, cost := 1, profit := 4 },
       { date := 20250102, product := "Beta", region := "APAC", system := "Mobile",
         team := "Platform", owner := "bob", status := "Red",
         revenue := 7, cost := 2, profit := 5 }]).length = 1 :=
  ⟨by decide,
    (load_uncached_caps_deterministic 1
      [{ date := 20250101, product := "Alpha", region := "EMEA", system := "Web",
         team := "Data", owner := "alice", status := "Green",
         revenue := 5, cost := 1, profit := 4 },
       { date := 20250102, product := "Beta", region := "APAC", system := "Mobile",
         team := "Platform", owner := "bob", status := "Red",
         revenue := 7, cost := 2, profit := 5 }] (by decide)).1⟩

/-- C9 (confirmed): role normalization always yields one of the three
canonical roles; the alias table is matched exactly and case-sensitively, so
`"EnterpriseArchitect"` maps to `"Architect"`, unknown values and `None`
collapse to `"Developer"`, and lowercased aliases are not recognized. -/
theorem normalize_role_canonical_and_aliases :
    (∀ v, normalize_role v = "CIO" ∨ normalize_role v = "Architect"
      ∨ normalize_role v = "Developer")
    ∧ normalize_role (some "EnterpriseArchitect") = "Architect"
    ∧ normalize_role (some "unknown-value") = "Developer"
    ∧ normalize_role none = "Developer"
    ∧ normalize_role (some "enterprisearchitect") = "Developer"
    ∧ normalize_role (some "cio") = "Developer" :=
  ⟨normalize_role_total, by decide, by decide, by decide, by decide, by decide⟩

/-- C10 (confirmed): the development identity installed when authentication is
disabled carries role Developer and team Platform, so the RBAC step of the
bootstrap data load narrows the dataset to the rows whose team is
`"Platform"` — the development user does not see the full dataset. -/
theorem default_claims_platform_narrowing (now : Int) (df : List Record) :
    (default_claims now).role = "Developer"
    ∧ (default_claims now).team = some "Platform"
    ∧ rbac_narrow (some (default_claims now)) df
        = df.filter fun r => r.team == "Platform" := by
  refine ⟨rfl, rfl, ?_⟩
  simp only [rbac_narrow, default_claims]
  rw [if_pos ⟨by decide, by decide⟩]
